import Mathlib

/-!
Verification development for the fminer repository: a football-fixture
scraping pipeline (link crawler, parallel per-game extractor, Vienna
post-processor, JSON emitter).  Each Python function relevant to the
frozen claims is shallowly embedded as an executable Lean definition,
translated from the source files:
  src/fminer.py, src/game_miner_parallel.py, src/post_processing.py,
  src/create_martiball_json.py.
Machine-level Python details are modelled as follows: strings are Lean
strings (operated on via their char lists), floats are exact rationals,
missing values (None / NaN) are Option / an explicit PyVal type, and
code that can raise is modelled with explicit step outcomes.
-/

namespace FMiner

/-! ## Python string primitives -/

/-- The ASCII whitespace characters stripped by Python str.strip and
matched by the regex class backslash-s (restricted to ASCII, which is
all that occurs in the crawled address data). -/
def isSpaceC (c : Char) : Bool :=
  c = ' ' || c = '\t' || c = '\n' || c = '\r' || c = '\x0b' || c = '\x0c'

/-- Drop leading and trailing whitespace from a char list (Python strip). -/
def trimChars (l : List Char) : List Char :=
  ((l.dropWhile isSpaceC).reverse.dropWhile isSpaceC).reverse

/-- Python str.strip(). -/
def pyStrip (s : String) : String := String.mk (trimChars s.data)

/-- Python s.split(",") on a char list: comma-separated segments. -/
def splitCommaL : List Char → List (List Char)
  | [] => [[]]
  | c :: rest =>
    match splitCommaL rest with
    | [] => [[]]
    | h :: t => if c = ',' then [] :: h :: t else (c :: h) :: t

/-- Python substring test: needle occurs contiguously in haystack. -/
def containsSub (needle : List Char) : List Char → Bool
  | [] => needle.isEmpty
  | c :: rest => needle.isPrefixOf (c :: rest) || containsSub needle rest

/-- Per-character ASCII lowercasing (Python str.lower restricted to the
ASCII letters, which is all the substring tests in the source consult). -/
def lowerL (l : List Char) : List Char := l.map Char.toLower

/-- Delete the first occurrence of pat (Python s.replace(pat, "", 1)).
An empty pattern leaves the string unchanged, as in the Python call with
an empty replacement. -/
def deleteFirstL (pat : List Char) : List Char → List Char
  | [] => []
  | c :: rest =>
    if pat ≠ [] && pat.isPrefixOf (c :: rest) then rest.drop (pat.length - 1)
    else c :: deleteFirstL pat rest

/-- Python addr.replace(street, "", 1). -/
def pyDeleteFirst (s pat : String) : String := String.mk (deleteFirstL pat.data s.data)

/-- Fuelled worker for pyReplaceAll; fuel bounds the scan length so the
recursion is structural.  Called with fuel = length of the list, which
is always enough because every step consumes at least one character. -/
def replaceAllAux (pat repl : List Char) : Nat → List Char → List Char
  | _, [] => []
  | 0, l => l
  | fuel + 1, c :: rest =>
    if pat ≠ [] && pat.isPrefixOf (c :: rest) then
      repl ++ replaceAllAux pat repl fuel (rest.drop (pat.length - 1))
    else
      c :: replaceAllAux pat repl fuel rest

/-- Python s.replace(old, new): replace every non-overlapping occurrence,
scanning left to right. -/
def pyReplaceAll (s old new : String) : String :=
  String.mk (replaceAllAux old.data new.data s.data.length s.data)

/-- Python truthiness idiom `x or default` for an optional string:
None and the empty string fall back to the default. -/
def pyOrS (x : Option String) (dflt : String) : String :=
  match x with
  | none => dflt
  | some s => if s = "" then dflt else s

/-- Python int(s) for a plain optionally-signed decimal numeral
(the only shape that reaches int() in this code base). -/
def natOfDigits (l : List Char) : Nat :=
  l.foldl (fun n c => n * 10 + (c.toNat - '0'.toNat)) 0

def intOfString (s : String) : Option Int :=
  match s.data with
  | [] => none
  | '-' :: ds => if ds ≠ [] && ds.all Char.isDigit then some (-(natOfDigits ds : Int)) else none
  | '+' :: ds => if ds ≠ [] && ds.all Char.isDigit then some ((natOfDigits ds : Int)) else none
  | ds => if ds.all Char.isDigit then some ((natOfDigits ds : Int)) else none

/-! ## The PLZ/Ort regex of post_processing.py

The pattern from src/post_processing.py line 24 is
  backslash-b (digits{4,5}) backslash-s+ ([A-Za-z AOU-umlauts eszett dot hyphen space]+) backslash-b
and is applied with re.search (leftmost match, greedy quantifiers with
backtracking).  The word-character predicate for the boundary check is
Python's backslash-w restricted to ASCII alphanumerics, underscore and
the German letters occurring in the character class. -/

def germanChars : List Char := ['Ä', 'Ö', 'Ü', 'ä', 'ö', 'ü', 'ß']

def isWordC (c : Char) : Bool := c.isAlphanum || c = '_' || germanChars.contains c

/-- The character class of group 2 of the pattern. -/
def isClassC (c : Char) : Bool :=
  c.isAlpha || germanChars.contains c || c = '.' || c = '-' || c = ' '

/-- Length of the maximal run of characters satisfying p at the front. -/
def takeRun (p : Char → Bool) (l : List Char) : Nat := (l.takeWhile p).length

/-- Try candidate lengths n, n-1, ..., 1 in order (greedy backtracking). -/
def firstDesc (f : Nat → Option (List Char × List Char)) : Nat → Option (List Char × List Char)
  | 0 => none
  | n + 1 =>
    match f (n + 1) with
    | some r => some r
    | none => firstDesc f n

/-- Word-boundary test after consuming c characters of rest2:
the last consumed char and the following char differ in word-ness. -/
def boundaryAfter (rest2 : List Char) (c : Nat) : Bool :=
  match (rest2.take c).getLast?, (rest2.drop c).head? with
  | none, _ => false
  | some lc, some nc => isWordC lc != isWordC nc
  | some lc, none => isWordC lc

/-- Attempt the tail of the pattern after choosing d digits at the
current position: greedy whitespace run, then greedy character-class
run, then the trailing word boundary. -/
def tryDigits (l : List Char) (d : Nat) : Option (List Char × List Char) :=
  if d ≤ takeRun Char.isDigit l then
    let rest := l.drop d
    firstDesc (fun w =>
        let rest2 := rest.drop w
        firstDesc (fun c =>
            if boundaryAfter rest2 c then some (l.take d, rest2.take c) else none)
          (takeRun isClassC rest2))
      (takeRun isSpaceC rest)
  else none

/-- Try to match the whole pattern at the current position; prevW is the
word-ness of the preceding character (false at the start of the string),
used for the leading word boundary. -/
def matchAt (prevW : Bool) (l : List Char) : Option (List Char × List Char) :=
  match l with
  | [] => none
  | c :: _ =>
    if prevW == isWordC c then none
    else
      match tryDigits l 5 with
      | some r => some r
      | none => tryDigits l 4

/-- re.search: leftmost match, scanning positions left to right. -/
def searchFrom : Bool → List Char → Option (List Char × List Char)
  | _, [] => none
  | prevW, c :: rest =>
    match matchAt prevW (c :: rest) with
    | some r => some r
    | none => searchFrom (isWordC c) rest

/-- First match of the PLZ/Ort pattern in s, returning (group 1, group 2). -/
def reSearchPLZ (s : String) : Option (String × String) :=
  match searchFrom false s.data with
  | some (g1, g2) => some (String.mk g1, String.mk g2)
  | none => none

/-! ## extract_address_parts (src/post_processing.py lines 10-38) -/

structure AddressParts where
  Strasse : Option String
  PLZ : Option String
  Ort : Option String
deriving DecidableEq, Repr

/-- parts = [p.strip() for p in addr.split(",") if p.strip()] -/
def cleanParts (a : String) : List String :=
  ((splitCommaL a.data).map (fun l => String.mk (trimChars l))).filter (fun s => s ≠ "")

/-- plz_ort_source: segment 1 if there are at least two segments, else
the address with the street deleted once (when a street exists), else
the address itself. -/
def plzOrtSource (a : String) : String :=
  match cleanParts a with
  | _ :: p1 :: _ => p1
  | [st] => pyDeleteFirst a st
  | [] => a

/-- Extract street, postal code and city from a free-form address.
A missing address (None / NaN in the data frame) yields all-null parts. -/
def extract_address_parts : Option String → AddressParts
  | none => { Strasse := none, PLZ := none, Ort := none }
  | some a =>
    let street := (cleanParts a).head?
    match reSearchPLZ (plzOrtSource a) with
    | some (g1, g2) => { Strasse := street, PLZ := some (pyStrip g1), Ort := some (pyStrip g2) }
    | none =>
      match reSearchPLZ a with
      | some (g1, g2) => { Strasse := street, PLZ := some (pyStrip g1), Ort := some (pyStrip g2) }
      | none => { Strasse := street, PLZ := none, Ort := none }

/-! ## Post-processor pipeline (src/post_processing.py main, lines 71-115)

A data-frame row of the extractor output CSV.  Cell values are optional:
none models a missing value (NaN after pd.read_csv).  Coordinates are
exact rationals standing for the Python floats. -/

structure InRow where
  Datum : Option String
  Liga : Option String
  Typ : Option String
  Runde : Option String
  Heim : Option String
  Gast : Option String
  Spielort_Name : Option String
  Adresse : Option String
  Latitude : Option ℚ
  Longitude : Option ℚ
  Quelle : Option String
deriving DecidableEq, Repr

/-- A row of the clean / fails outputs, restricted to the wanted_cols
column set; Datum has been parsed to a datetime (modelled as an
integer timestamp, none for NaT). -/
structure OutRow where
  Datum : Option Int
  Liga : Option String
  Typ : Option String
  Runde : Option String
  Heim : Option String
  Gast : Option String
  Spielort_Name : Option String
  Strasse : Option String
  PLZ : Option String
  Ort : Option String
  Latitude : Option ℚ
  Longitude : Option ℚ
  Quelle : Option String
deriving DecidableEq, Repr

/-- Label normalization: the Liga replace map and the Typ replace map
(lines 76-79); pandas replace leaves missing values untouched. -/
def normalizeRow (r : InRow) : InRow :=
  { r with
    Liga := r.Liga.map (fun s =>
      if s = "Österreichische Fußball-Bundesliga" then "ADMIRAL Bundesliga" else s)
    Typ := r.Typ.map (fun s =>
      if s = "Mann" then "Männer" else if s = "Frau" then "Frauen" else s) }

/-- df.Ort.str.contains("wien", case=False, na=False): missing city is
False, otherwise a case-insensitive substring test. -/
def viennaOk (ort : Option String) : Bool :=
  match ort with
  | none => false
  | some s => containsSub "wien".data (lowerL s.data)

/-- Projection of a parsed row onto the wanted_cols output columns;
pd is the datetime parser (pd.to_datetime with errors="coerce":
unparseable input yields none). -/
def toOutRow (pd : Option String → Option Int) (r : InRow) (ap : AddressParts) : OutRow :=
  { Datum := pd r.Datum
    Liga := r.Liga
    Typ := r.Typ
    Runde := r.Runde
    Heim := r.Heim
    Gast := r.Gast
    Spielort_Name := r.Spielort_Name
    Strasse := ap.Strasse
    PLZ := ap.PLZ
    Ort := ap.Ort
    Latitude := r.Latitude
    Longitude := r.Longitude
    Quelle := r.Quelle }

/-- Ascending comparison on parsed dates with missing dates (NaT)
ordered last, as in df.sort_values("Datum"). -/
def datumLE (a b : Option Int) : Bool :=
  match a, b with
  | none, none => true
  | none, some _ => false
  | some _, none => true
  | some x, some y => x ≤ y

def insertD (r : OutRow) : List OutRow → List OutRow
  | [] => [r]
  | x :: xs => if datumLE r.Datum x.Datum then r :: x :: xs else x :: insertD r xs

/-- Sort ascending by Datum, missing dates last (df.sort_values("Datum");
the claims depend only on the sorted list being a permutation). -/
def sortByDatum : List OutRow → List OutRow
  | [] => []
  | x :: xs => insertD x (sortByDatum xs)

/-- The corrected latitude 48.225324870552456 (source line 107), as an
explicit fraction so that it evaluates; gersthofLat_eq below identifies
it with the decimal literal. -/
def gersthofLat : ℚ := mkRat 48225324870552456 1000000000000000

/-- The corrected longitude 16.328420452719126 (source line 107). -/
def gersthofLon : ℚ := mkRat 16328420452719126 1000000000000000

/-- The manual-correction table (lines 104-107): a row whose home team
is exactly "Gersthofer SV" gets its coordinates overwritten. -/
def applyGersthof (r : OutRow) : OutRow :=
  if r.Heim = some "Gersthofer SV" then
    { r with Latitude := some gersthofLat, Longitude := some gersthofLon }
  else r

/-- The post-processor main pipeline: normalize labels, parse addresses,
filter to rows whose parsed city contains "wien" case-insensitively,
project to the output columns, parse and sort by date, apply the manual
correction, and split off the fails rows (both coordinates missing).
Returns (clean output, fails output). -/
def ppWien (rows : List InRow) : List (InRow × AddressParts) :=
  ((rows.map normalizeRow).map (fun r => (r, extract_address_parts r.Adresse))).filter
    (fun pr => viennaOk pr.2.Ort)

def ppSelected (pd : Option String → Option Int) (rows : List InRow) : List OutRow :=
  (ppWien rows).map (fun pr => toOutRow pd pr.1 pr.2)

/-- df_out after sorting and the manual correction. -/
def ppCorrected (pd : Option String → Option Int) (rows : List InRow) : List OutRow :=
  (sortByDatum (ppSelected pd rows)).map applyGersthof

def postProcess (pd : Option String → Option Int) (rows : List InRow) :
    List OutRow × List OutRow :=
  (ppCorrected pd rows,
   (ppCorrected pd rows).filter (fun r => r.Latitude.isNone && r.Longitude.isNone))

/-! ## Coordinate polling (src/game_miner_parallel.py get_coordinates, lines 23-59)

The in-page structure window.SG.container.appPreloads is modelled as a
list of key values, each coerced to an array of possibly-null objects;
an object may or may not carry numeric latitude/longitude fields. -/

structure GeoObj where
  latitude : Option ℚ
  longitude : Option ℚ
deriving DecidableEq, Repr

/-- appPreloads: the values of the structure, each as an array of
possibly-null entries (Array.isArray coercion already applied). -/
abbrev Preloads := List (List (Option GeoObj))

/-- One step of the in-page scan: an entry is accepted exactly when it
is non-null, has numeric latitude and longitude, and they are not both
zero; the accepted entry yields [latitude, longitude]. -/
def goodEntry (o : Option GeoObj) : Option (ℚ × ℚ) :=
  match o with
  | none => none
  | some g =>
    match g.latitude, g.longitude with
    | some la, some lo => if lo = 0 ∧ la = 0 then none else some (la, lo)
    | _, _ => none

/-- The read script: scan all entries in order, return the first
accepted [latitude, longitude], else null. -/
def readCoords (ap : Preloads) : Option (ℚ × ℚ) :=
  ap.flatten.findSome? goodEntry

/-- The polling predicate of the WebDriverWait: true once some entry is
accepted (a coordinate pair of exactly (0,0) never satisfies it). -/
def waitPred (ap : Preloads) : Bool :=
  ap.flatten.any (fun o => (goodEntry o).isSome)

/-- Every entry of the structure that carries both numeric coordinates
carries exactly (0,0). -/
def onlyZeroCoords (ap : Preloads) : Bool :=
  ap.flatten.all (fun o =>
    match o with
    | none => true
    | some g =>
      match g.latitude, g.longitude with
      | some la, some lo => decide (la = 0) && decide (lo = 0)
      | _, _ => true)

/-- get_coordinates.  The argument is the observable outcome of the
polling wait: none when the wait (or anything else inside the try) threw
— every exception is caught and yields (None, None) — and some ap when
the wait succeeded, with ap the structure at read time (which may have
changed since the wait).  A null read result also yields (None, None)
since an empty result is falsy. -/
def getCoordinates (outcome : Option Preloads) : Option ℚ × Option ℚ :=
  match outcome with
  | none => (none, none)
  | some ap =>
    match readCoords ap with
    | some (la, lo) => (some la, some lo)
    | none => (none, none)

/-! ## Per-link extraction (src/game_miner_parallel.py mine_game, lines 116-211) -/

/-- Outcome of a fallible browser interaction: a value, or a raised
exception carrying its message. -/
inductive PyStep (α : Type) where
  | ok (a : α)
  | exn (e : String)
deriving DecidableEq, Repr

/-- A team anchor element: title attribute, text, href attribute. -/
structure TeamEl where
  title : Option String
  text : String
  href : Option String
deriving DecidableEq, Repr

/-- The observable behaviour of one game page, in the order mine_game
touches it.  The fallible steps are exactly the statements of the try
block that can raise: navigation (safe_get after retries), the container
visibility wait, the .round and .date lookups, the team anchors
(including the bounded wait when fewer than two are present), and
get_bewerb (whose WebDriverWait is not wrapped in a local handler).
spielbeginn, spielort and adresse come from blocks whose exceptions are
swallowed locally and so always produce strings; coords is the
get_coordinates outcome, which never raises. -/
structure PageSpec where
  nav : PyStep Unit
  containerWait : PyStep Unit
  runde : PyStep String
  datum : PyStep String
  teams : PyStep (TeamEl × TeamEl)
  bewerb : PyStep (Option String)
  spielbeginn : String
  spielort : String
  adresse : String
  coords : Option Preloads

/-- normalize_link / the link column: u.replace("/Spielbericht/", "/"). -/
def normalizeLink (u : String) : String := pyReplaceAll u "/Spielbericht/" "/"

/-- A row of the extractor output. -/
structure GameRow where
  Datum : Option Int
  Liga : Option String
  Typ : Option String
  Runde : Option String
  Heim : Option String
  Gast : Option String
  Heim_Link : Option String
  Gast_Link : Option String
  Spielort_Name : Option String
  Adresse : Option String
  Latitude : Option ℚ
  Longitude : Option ℚ
  Quelle : Option String
  link : Option String
  error : Option String
deriving DecidableEq, Repr

/-- The record mine_game returns when an exception escapes the try
block: every field null except the source link, the normalized link and
the error message (lines 201-208). -/
def errRow (weblink e : String) : GameRow :=
  { Datum := none, Liga := none, Typ := none, Runde := none
    Heim := none, Gast := none, Heim_Link := none, Gast_Link := none
    Spielort_Name := none, Adresse := none, Latitude := none, Longitude := none
    Quelle := some weblink, link := some (normalizeLink weblink)
    error := some e }

/-- mine_game: run the extraction steps in order; the first exception
short-circuits to the error record.  pdt is the fixed-format datetime
parser pd.to_datetime(_, format="%d.%m.%Y %H:%M", errors="coerce")
(unparseable input yields none). -/
def mineGame (pdt : String → Option Int) (weblink : String) (p : PageSpec) : GameRow :=
  match p.nav with
  | .exn e => errRow weblink e
  | .ok _ =>
  match p.containerWait with
  | .exn e => errRow weblink e
  | .ok _ =>
  match p.runde with
  | .exn e => errRow weblink e
  | .ok rundeRaw =>
  match p.datum with
  | .exn e => errRow weblink e
  | .ok datumRaw =>
  match p.teams with
  | .exn e => errRow weblink e
  | .ok tpair =>
  match p.bewerb with
  | .exn e => errRow weblink e
  | .ok bew =>
    let runde := pyStrip rundeRaw
    let datum := pyStrip datumRaw
    let heimName := pyOrS tpair.1.title (pyStrip tpair.1.text)
    let gastName := pyOrS tpair.2.title (pyStrip tpair.2.text)
    let heimLink := pyOrS tpair.1.href ""
    let gastLink := pyOrS tpair.2.href ""
    let liga := pyOrS bew ""
    let c := getCoordinates p.coords
    let datetimeStr := pyStrip (datum ++ " " ++ p.spielbeginn)
    { Datum := pdt datetimeStr
      Liga := some liga
      Typ := some (if containsSub "Frau".data liga.data then "Frau" else "Mann")
      Runde := some runde
      Heim := some heimName
      Gast := some gastName
      Heim_Link := some heimLink
      Gast_Link := some gastLink
      Spielort_Name := some p.spielort
      Adresse := some p.adresse
      Latitude := c.1
      Longitude := c.2
      Quelle := some weblink
      link := some (normalizeLink weblink)
      error := none }

/-- The message of the first exception mine_game would encounter, if any. -/
def firstErr (p : PageSpec) : Option String :=
  match p.nav with
  | .exn e => some e
  | .ok _ =>
  match p.containerWait with
  | .exn e => some e
  | .ok _ =>
  match p.runde with
  | .exn e => some e
  | .ok _ =>
  match p.datum with
  | .exn e => some e
  | .ok _ =>
  match p.teams with
  | .exn e => some e
  | .ok _ =>
  match p.bewerb with
  | .exn e => some e
  | .ok _ => none

/-- The worker-pool orchestration of run_parallel (lines 264-274): one
task per link, each contributing exactly one record to the result list
(mineGame is total, so a failing link cannot abort the batch). -/
def runBatch (pdt : String → Option Int) (tasks : List (String × PageSpec)) : List GameRow :=
  tasks.map (fun t => mineGame pdt t.1 t.2)

/-! ## Link discovery crawler (src/fminer.py) -/

/-- A row of the crawler output CSV: href, source_url, first_seen_utc. -/
structure CsvRow where
  href : String
  src : String
  ts : String
deriving DecidableEq, Repr

/-- A raw anchor element inside the schedule table (get_attribute
results; a missing attribute is None, defaulted to "" by the code). -/
structure RawLink where
  href : Option String
  text : Option String
deriving DecidableEq, Repr

/-- collect_links_from_page (lines 104-127): normalize each href by
deleting the "/Spielbericht/" infix, skip empty hrefs, page-local
duplicates, hrefs containing "verein" case-insensitively, and hrefs not
containing "oefb.at"; keep encounter order. -/
def collectLinks (srcUrl nowIso : String) (els : List RawLink) : List CsvRow :=
  (els.foldl
    (fun (acc : List CsvRow × List String) el =>
      let href := normalizeLink (pyOrS el.href "")
      if href = "" then acc
      else if href ∈ acc.2 then acc
      else if containsSub "verein".data (lowerL href.data) then acc
      else if !containsSub "oefb.at".data href.data then acc
      else (acc.1 ++ [{ href := href, src := srcUrl, ts := nowIso }], href :: acc.2))
    ([], [])).1

/-- The crawler's run state: the global seen-set and the output CSV
contents (header row abstracted away; the file is only ever appended
to). -/
structure CrawlState where
  seen : List String
  file : List CsvRow
deriving Repr

/-- Steps 3-4 of stream_links_from_url: append each collected row whose
href is not in the global seen-set, adding it to the set (lines 248-252
and 258-263). -/
def appendNew : List CsvRow → CrawlState → CrawlState
  | [], st => st
  | it :: rest, st =>
    appendNew rest
      (if it.href ∈ st.seen then st
       else { seen := it.href :: st.seen, file := st.file ++ [it] })

/-- One page visit: the anchors visible before the load-more loop and
after it, plus the source url and the two collection timestamps. -/
structure PageVisit where
  round1 : List RawLink
  round2 : List RawLink
  url : String
  ts1 : String
  ts2 : String

/-- stream_links_from_url (lines 238-268), data effect: collect and
append once before the click loop and once after it. -/
def streamLinksFromUrl (pv : PageVisit) (st : CrawlState) : CrawlState :=
  appendNew (collectLinks pv.url pv.ts2 pv.round2)
    (appendNew (collectLinks pv.url pv.ts1 pv.round1) st)

/-- load_existing_hrefs (lines 130-146): the stripped non-empty hrefs of
the prior CSV (a list standing for the Python set; only membership is
consulted). -/
def loadExistingHrefs (prior : List CsvRow) : List String :=
  (prior.map (fun r => pyStrip r.href)).filter (fun h => h ≠ "")

/-- The resume seed: seen-set from the prior file, output opened in
append mode so the file starts as the prior contents. -/
def resumeState (prior : List CsvRow) : CrawlState :=
  { seen := loadExistingHrefs prior, file := prior }

/-- scrape_multiple_urls_streaming (lines 271-290): visit the listing
pages sequentially, each streaming into the shared seen-set and CSV. -/
def runCrawl (prior : List CsvRow) (pages : List PageVisit) : CrawlState :=
  pages.foldl (fun st pv => streamLinksFromUrl pv st) (resumeState prior)

/-- Invariant tying a crawl state to the prior file contents: every
stored href is in the seen-set, every prior href is in the seen-set,
the stored hrefs are pairwise distinct, and the file extends the prior
file by rows whose hrefs do not occur in the prior file. -/
def crawlInv (prior : List CsvRow) (st : CrawlState) : Prop :=
  (∀ r ∈ st.file, r.href ∈ st.seen)
  ∧ (∀ h ∈ prior.map CsvRow.href, h ∈ st.seen)
  ∧ (st.file.map CsvRow.href).Nodup
  ∧ ∃ app, st.file = prior ++ app ∧ ∀ a ∈ app, a.href ∉ prior.map CsvRow.href

/-! ## The load-more click loop (src/fminer.py click_more_until_stable,
lines 215-234) and the shape of a stream_links_from_url execution. -/

/-- Outcome of one iteration's 2-second wait for a clickable load-more
button. -/
inductive ClickEvent where
  | clickable
  | timeout
  | stale
deriving DecidableEq, Repr

/-- The externally visible actions of stream_links_from_url: a link
collection pass (steps 3-4) or a load-more click. -/
inductive CrawlAction where
  | collect
  | click
deriving DecidableEq, Repr

/-- click_more_until_stable: while fewer than maxClicks clicks have been
made, wait for the button: clickable means click and continue, a timeout
means no more pages (stop), a stale element is transient (retry).  The
event list is the finite observed behaviour of the page. -/
def clickLoop (maxClicks : Nat) : Nat → List ClickEvent → List CrawlAction
  | _, [] => []
  | clicks, e :: rest =>
    if clicks < maxClicks then
      match e with
      | .clickable => .click :: clickLoop maxClicks (clicks + 1) rest
      | .timeout => []
      | .stale => clickLoop maxClicks clicks rest
    else []

/-- The action trace of stream_links_from_url: one collection pass, then
the whole click loop, then one more collection pass (lines 246-263). -/
def streamTrace (maxClicks : Nat) (events : List ClickEvent) : List CrawlAction :=
  CrawlAction.collect :: (clickLoop maxClicks 0 events ++ [CrawlAction.collect])

/-- The behaviour the claim asserts: every click is immediately followed
by a re-run of the collection steps. -/
def eachClickRecollects : List CrawlAction → Bool
  | [] => true
  | [CrawlAction.click] => false
  | CrawlAction.click :: a :: rest =>
    (a == CrawlAction.collect) && eachClickRecollects (a :: rest)
  | _ :: rest => eachClickRecollects rest

/-! ## JSON emitter (src/create_martiball_json.py) -/

/-- A cell value as seen by build_record when iterating the clean CSV:
a missing column yields None, an empty CSV cell yields float NaN, and
otherwise a string.  NaN is Python-truthy, None and "" are falsy. -/
inductive PyVal where
  | vNone
  | vNaN
  | vStr (s : String)
deriving DecidableEq, Repr

/-- pd.isna on a cell value. -/
def pyIsNa : PyVal → Bool
  | .vNone => true
  | .vNaN => true
  | .vStr _ => false

/-- to_int_or_none (lines 21-27): None on missing values, otherwise
int(str(v).strip()) with a parse failure giving None. -/
def to_int_or_none (v : PyVal) : Option Int :=
  match v with
  | .vNone => none
  | .vNaN => none
  | .vStr s => intOfString (pyStrip s)

/-- The string-field idiom of build_record:
(x or "") if isinstance(x, str) else str(x or "").
A string passes through, None becomes "", and NaN — being truthy —
becomes str(nan), the three characters "nan". -/
def strField : PyVal → String
  | .vStr s => s
  | .vNone => ""
  | .vNaN => "nan"

/-- A row of the clean CSV as consumed by build_record. -/
structure JsonRow where
  Datum : PyVal
  Heim : PyVal
  Gast : PyVal
  Typ : PyVal
  Liga : PyVal
  Spielort_Name : PyVal
  Strasse : PyVal
  PLZ : PyVal
  Ort : PyVal
  Latitude : PyVal
  Longitude : PyVal
deriving DecidableEq, Repr

/-- The emitted JSON record (field names without spaces). -/
structure MartiballRecord where
  Spieldatum : Option String
  Heimmannschaft : String
  Gastmannschaft : String
  Typ : String
  Liga : String
  Spielort : String
  SpielortStrasse : String
  SpielortPLZ : Option Int
  SpielortOrt : String
  Latitude : Option ℚ
  Longitude : Option ℚ
deriving DecidableEq, Repr

/-- build_record (lines 30-48).  toFloat models to_float_or_none and
toDate the pd.to_datetime + strftime step; both are passed in abstractly
since the claims do not constrain them. -/
def buildRecord (toFloat : PyVal → Option ℚ) (toDate : PyVal → Option String)
    (row : JsonRow) : MartiballRecord :=
  { Spieldatum := toDate row.Datum
    Heimmannschaft := strField row.Heim
    Gastmannschaft := strField row.Gast
    Typ := strField row.Typ
    Liga := strField row.Liga
    Spielort := strField row.Spielort_Name
    SpielortStrasse := strField row.Strasse
    SpielortPLZ := to_int_or_none row.PLZ
    SpielortOrt := strField row.Ort
    Latitude := toFloat row.Latitude
    Longitude := toFloat row.Longitude }

/-! ## Concrete inputs used by the witness theorems -/

/-- The Vienna predicate on an output row. -/
def viennaRowOk (r : OutRow) : Bool := viennaOk r.Ort

/-- An output row with no parsed city. -/
def rowNoOrt : OutRow :=
  { Datum := none, Liga := none, Typ := none, Runde := none, Heim := none
    Gast := none, Spielort_Name := none, Strasse := none, PLZ := none
    Ort := none, Latitude := none, Longitude := none, Quelle := none }

/-- An extractor row for the Gersthofer SV home team with a Vienna
address and no scraped coordinates. -/
def inRow6 : InRow :=
  { Datum := none, Liga := none, Typ := none, Runde := none
    Heim := some "Gersthofer SV", Gast := none, Spielort_Name := none
    Adresse := some "Gasse 1, 1180 Wien", Latitude := none, Longitude := none
    Quelle := none }

/-- The clean-output row produced from inRow6. -/
def outRow6 : OutRow :=
  { Datum := none, Liga := none, Typ := none, Runde := none
    Heim := some "Gersthofer SV", Gast := none, Spielort_Name := none
    Strasse := some "Gasse 1", PLZ := some "1180", Ort := some "Wien"
    Latitude := some gersthofLat, Longitude := some gersthofLon, Quelle := none }

/-- A page whose navigation raises. -/
def pageFail : PageSpec :=
  { nav := .exn "boom", containerWait := .ok (), runde := .ok "", datum := .ok ""
    teams := .ok ({ title := none, text := "", href := none },
                  { title := none, text := "", href := none })
    bewerb := .ok none, spielbeginn := "", spielort := "", adresse := ""
    coords := none }

/-- A page where every extraction step succeeds but the coordinate
polling times out. -/
def pageOk : PageSpec :=
  { nav := .ok (), containerWait := .ok (), runde := .ok " Runde 5 "
    datum := .ok "01.02.2026"
    teams := .ok ({ title := some "Heim SV", text := "Heim SV", href := some "http://h" },
                  { title := none, text := " Gast SV ", href := none })
    bewerb := .ok (some "Wiener Stadtliga"), spielbeginn := "10:30"
    spielort := "Sportplatz", adresse := "Gasse 2, 1100 Wien"
    coords := none }

def apZero : Preloads := [[some { latitude := some 0, longitude := some 0 }]]

def priorW : List CsvRow := [{ href := "http://www.oefb.at/a", src := "u", ts := "t" }]

def pagesW : List PageVisit :=
  [{ round1 := [{ href := some "http://www.oefb.at/a", text := none },
                { href := some "http://www.oefb.at/b", text := none }]
     round2 := [], url := "u", ts1 := "t1", ts2 := "t2" }]

/-- A clean-CSV row whose PLZ cell holds the string "1190" and whose
other cells are absent. -/
def jrowPLZ : JsonRow :=
  { Datum := .vNone, Heim := .vNone, Gast := .vNone, Typ := .vNone, Liga := .vNone
    Spielort_Name := .vNone, Strasse := .vNone, PLZ := .vStr "1190", Ort := .vNone
    Latitude := .vNone, Longitude := .vNone }

/-- The same row with a missing-value (NaN) Spielort_Name cell, as
produced by pd.read_csv for an empty cell. -/
def jrowNaN : JsonRow := { jrowPLZ with Spielort_Name := .vNaN }

/-! ## Helper lemmas -/

theorem gersthofLat_eq : gersthofLat = 48.225324870552456 := by
  norm_num [gersthofLat, Rat.mkRat_eq_div]

theorem gersthofLon_eq : gersthofLon = 16.328420452719126 := by
  norm_num [gersthofLon, Rat.mkRat_eq_div]

theorem mem_insertD {a r : OutRow} {l : List OutRow} :
    a ∈ insertD r l ↔ a = r ∨ a ∈ l := by
  induction l with
  | nil => simp [insertD]
  | cons x xs ih =>
    by_cases h : datumLE r.Datum x.Datum
    · simp [insertD, h]
    · simp [insertD, h, ih]
      tauto

theorem mem_sortByDatum {a : OutRow} {l : List OutRow} :
    a ∈ sortByDatum l ↔ a ∈ l := by
  induction l with
  | nil => simp [sortByDatum]
  | cons x xs ih => simp [sortByDatum, mem_insertD, ih]

theorem ort_applyGersthof (r : OutRow) : (applyGersthof r).Ort = r.Ort := by
  unfold applyGersthof
  split <;> rfl

theorem mem_clean_viennaOk {pd : Option String → Option Int} {rows : List InRow}
    {r : OutRow} (hr : r ∈ (postProcess pd rows).1) : viennaRowOk r = true := by
  simp only [postProcess, ppCorrected] at hr
  rcases List.mem_map.mp hr with ⟨r', hr', rfl⟩
  have hr'' : r' ∈ ppSelected pd rows := mem_sortByDatum.mp hr'
  rcases List.mem_map.mp hr'' with ⟨pr, hpr, rfl⟩
  have hv := (List.mem_filter.mp hpr).2
  unfold viennaRowOk
  rw [ort_applyGersthof]
  exact hv

/-! ## Claims -/

/-- Claim C1: for the input "Hauptstraße 1, 1010 Wien" the extractor
returns street "Hauptstraße 1", postal code "1010" and city "Wien"; in
general the street is the first trimmed comma segment, the postal code
and city are the (stripped) groups of the first match of the PLZ/Ort
pattern against the preferred source, falling back to a second-tier
search of the original full address, and both are null exactly when
both tiers fail. -/
theorem claim_C1 :
    extract_address_parts (some "Hauptstraße 1, 1010 Wien")
      = { Strasse := some "Hauptstraße 1", PLZ := some "1010", Ort := some "Wien" }
    ∧ (∀ a : String, (extract_address_parts (some a)).Strasse = (cleanParts a).head?)
    ∧ (∀ a g1 g2, reSearchPLZ (plzOrtSource a) = some (g1, g2) →
        (extract_address_parts (some a)).PLZ = some (pyStrip g1)
        ∧ (extract_address_parts (some a)).Ort = some (pyStrip g2))
    ∧ (∀ a g1 g2, reSearchPLZ (plzOrtSource a) = none →
        reSearchPLZ a = some (g1, g2) →
        (extract_address_parts (some a)).PLZ = some (pyStrip g1)
        ∧ (extract_address_parts (some a)).Ort = some (pyStrip g2))
    ∧ (∀ a, ((extract_address_parts (some a)).PLZ = none
          ∧ (extract_address_parts (some a)).Ort = none)
        ↔ (reSearchPLZ (plzOrtSource a) = none ∧ reSearchPLZ a = none)) := by
  refine ⟨by decide, ?_, ?_, ?_, ?_⟩
  · intro a
    cases h1 : reSearchPLZ (plzOrtSource a) with
    | some p => cases p with | mk g1 g2 => simp [extract_address_parts, h1]
    | none =>
      cases h2 : reSearchPLZ a with
      | some p => cases p with | mk g1 g2 => simp [extract_address_parts, h1, h2]
      | none => simp [extract_address_parts, h1, h2]
  · intro a g1 g2 h1
    simp [extract_address_parts, h1]
  · intro a g1 g2 h1 h2
    simp [extract_address_parts, h1, h2]
  · intro a
    cases h1 : reSearchPLZ (plzOrtSource a) with
    | some p => cases p with | mk g1 g2 => simp [extract_address_parts, h1]
    | none =>
      cases h2 : reSearchPLZ a with
      | some p => cases p with | mk g1 g2 => simp [extract_address_parts, h1, h2]
      | none => simp [extract_address_parts, h1, h2]

/-- Witness for claim C1 at the concrete spec example. -/
theorem claim_C1_witness :
    (extract_address_parts (some "Hauptstraße 1, 1010 Wien")).PLZ = some (pyStrip "1010")
    ∧ (extract_address_parts (some "Hauptstraße 1, 1010 Wien")).Ort = some (pyStrip "Wien") :=
  claim_C1.2.2.1 "Hauptstraße 1, 1010 Wien" "1010" "Wien" (by decide)

/-- Claim C2: every row of the clean output has a non-null parsed city
containing "wien" case-insensitively, and a row failing that predicate
is in neither the clean nor the fails output. -/
theorem claim_C2 : ∀ (pd : Option String → Option Int) (rows : List InRow),
    ((postProcess pd rows).1.all viennaRowOk = true)
    ∧ ((postProcess pd rows).2.all viennaRowOk = true)
    ∧ (∀ r : OutRow, viennaRowOk r = false →
        r ∉ (postProcess pd rows).1 ∧ r ∉ (postProcess pd rows).2) := by
  intro pd rows
  have hfails : ∀ r : OutRow, r ∈ (postProcess pd rows).2 → r ∈ (postProcess pd rows).1 := by
    intro r hr
    exact (List.mem_filter.mp hr).1
  refine ⟨List.all_eq_true.mpr (fun r hr => mem_clean_viennaOk hr), ?_, ?_⟩
  · exact List.all_eq_true.mpr (fun r hr => mem_clean_viennaOk (hfails r hr))
  · intro r hr
    constructor
    · intro hmem
      rw [mem_clean_viennaOk hmem] at hr
      cases hr
    · intro hmem
      rw [mem_clean_viennaOk (hfails r hmem)] at hr
      cases hr

/-- Witness for claim C2: a row without a parsed city is in neither output. -/
theorem claim_C2_witness :
    rowNoOrt ∉ (postProcess (fun _ => none) []).1
    ∧ rowNoOrt ∉ (postProcess (fun _ => none) []).2 :=
  (claim_C2 (fun _ => none) []).2.2 rowNoOrt (by decide)

/-- Claim C5: the fails output consists of exactly the clean-output rows
with both coordinates null; a row with only one coordinate null is not
in fails, and every fails row remains in the clean output. -/
theorem claim_C5 : ∀ (pd : Option String → Option Int) (rows : List InRow) (r : OutRow),
    r ∈ (postProcess pd rows).2 ↔
      (r ∈ (postProcess pd rows).1 ∧ r.Latitude = none ∧ r.Longitude = none) := by
  intro pd rows r
  simp [postProcess, List.mem_filter, Option.isNone_iff_eq_none, and_assoc]

/-- Claim C6: every clean-output row whose home team is exactly
"Gersthofer SV" carries the hardcoded corrected coordinates, whatever
was scraped. -/
theorem claim_C6 : ∀ (pd : Option String → Option Int) (rows : List InRow) (r : OutRow),
    r ∈ (postProcess pd rows).1 → r.Heim = some "Gersthofer SV" →
    r.Latitude = some (48.225324870552456 : ℚ)
    ∧ r.Longitude = some (16.328420452719126 : ℚ) := by
  intro pd rows r hr hheim
  rw [← gersthofLat_eq, ← gersthofLon_eq]
  simp only [postProcess, ppCorrected] at hr
  rcases List.mem_map.mp hr with ⟨r', _, rfl⟩
  by_cases h : r'.Heim = some "Gersthofer SV"
  · unfold applyGersthof
    rw [if_pos h]
    exact ⟨rfl, rfl⟩
  · exfalso
    apply h
    unfold applyGersthof at hheim
    rw [if_neg h] at hheim
    exact hheim

/-- Witness for claim C6 on a one-row input whose scraped coordinates
are null. -/
theorem claim_C6_witness :
    outRow6.Latitude = some (48.225324870552456 : ℚ)
    ∧ outRow6.Longitude = some (16.328420452719126 : ℚ) :=
  claim_C6 (fun _ => none) [inRow6] outRow6 (by decide) (by decide)

theorem goodEntry_not_zero {o : Option GeoObj} {la lo : ℚ}
    (h : goodEntry o = some (la, lo)) : ¬(la = 0 ∧ lo = 0) := by
  intro hcon
  obtain ⟨hla0, hlo0⟩ := hcon
  subst hla0
  subst hlo0
  cases o with
  | none => simp [goodEntry] at h
  | some g =>
    obtain ⟨glat, glon⟩ := g
    rcases glat with _ | la' <;> rcases glon with _ | lo' <;> simp [goodEntry] at h
    exact h.1 h.2.2 h.2.1

/-- Claim C4: get_coordinates never returns (0,0): its result is
(None, None) or a pair different from (0,0); a structure whose only
full coordinate pairs are exactly (0,0) never satisfies the polling
predicate, and a timed-out poll yields (None, None). -/
theorem claim_C4 :
    (∀ o : Option Preloads, getCoordinates o ≠ ((some 0 : Option ℚ), (some 0 : Option ℚ)))
    ∧ (∀ ap : Preloads, onlyZeroCoords ap = true → waitPred ap = false)
    ∧ getCoordinates none = (none, none) := by
  refine ⟨?_, ?_, rfl⟩
  · intro o
    cases o with
    | none => simp [getCoordinates]
    | some ap =>
      cases h : readCoords ap with
      | none => simp [getCoordinates, h]
      | some p =>
        obtain ⟨la, lo⟩ := p
        simp only [getCoordinates, h]
        intro hcon
        have h1 : some la = (some 0 : Option ℚ) := congrArg Prod.fst hcon
        have h2 : some lo = (some 0 : Option ℚ) := congrArg Prod.snd hcon
        injection h1 with h1
        injection h2 with h2
        obtain ⟨a, _, hg⟩ := List.exists_of_findSome?_eq_some h
        exact goodEntry_not_zero hg ⟨h1, h2⟩
  · intro ap h
    unfold waitPred
    rw [List.any_eq_false]
    intro o ho
    have hall := (List.all_eq_true.mp h) o ho
    cases o with
    | none => simp [goodEntry]
    | some g =>
      obtain ⟨glat, glon⟩ := g
      rcases glat with _ | la' <;> rcases glon with _ | lo' <;>
        simp [goodEntry] at hall ⊢
      obtain ⟨hla, hlo⟩ := hall
      subst hla
      subst hlo
      simp

/-- Witness for claim C4: a preloads structure whose only coordinate
pair is exactly (0,0) does not satisfy the polling predicate. -/
theorem claim_C4_witness : waitPred apZero = false :=
  claim_C4.2.1 apZero (by decide)

/-- Claim C3: if any exception escapes the extraction steps, mine_game
returns the record with every field null except the source link fields
and the error message; mine_game is total, so the batch driver yields
exactly one record per submitted link and one failing link never aborts
the batch. -/
theorem claim_C3 :
    (∀ (pdt : String → Option Int) (weblink : String) (p : PageSpec) (e : String),
      firstErr p = some e → mineGame pdt weblink p = errRow weblink e)
    ∧ (∀ (pdt : String → Option Int) (tasks : List (String × PageSpec)),
      (runBatch pdt tasks).length = tasks.length) := by
  constructor
  · intro pdt weblink p e h
    obtain ⟨nav, cw, ru, da, te, be, sb, so, ad, co⟩ := p
    cases nav <;> cases cw <;> cases ru <;> cases da <;> cases te <;> cases be <;>
      simp_all [firstErr, mineGame]
  · intro pdt tasks
    simp [runBatch]

/-- Witness for claim C3 on a page whose navigation raises. -/
theorem claim_C3_witness :
    mineGame (fun _ => none) "u" pageFail = errRow "u" "boom" :=
  claim_C3.1 (fun _ => none) "u" pageFail "boom" rfl

/-- Claim C10: a failure or timeout confined to coordinate polling
never produces an error record: when every other step succeeds and
get_coordinates yields (None, None), the returned record has null
coordinates, a null error field, and every other extracted field
populated. -/
theorem claim_C10 : ∀ (pdt : String → Option Int) (weblink : String) (p : PageSpec)
    (r d : String) (t : TeamEl × TeamEl) (b : Option String),
    p.nav = PyStep.ok () → p.containerWait = PyStep.ok () →
    p.runde = PyStep.ok r → p.datum = PyStep.ok d →
    p.teams = PyStep.ok t → p.bewerb = PyStep.ok b →
    getCoordinates p.coords = (none, none) →
    (mineGame pdt weblink p).error = none
    ∧ (mineGame pdt weblink p).Latitude = none
    ∧ (mineGame pdt weblink p).Longitude = none
    ∧ (mineGame pdt weblink p).Runde = some (pyStrip r)
    ∧ (mineGame pdt weblink p).Heim = some (pyOrS t.1.title (pyStrip t.1.text))
    ∧ (mineGame pdt weblink p).Gast = some (pyOrS t.2.title (pyStrip t.2.text))
    ∧ (mineGame pdt weblink p).Liga = some (pyOrS b "")
    ∧ (mineGame pdt weblink p).Spielort_Name = some p.spielort
    ∧ (mineGame pdt weblink p).Adresse = some p.adresse
    ∧ (mineGame pdt weblink p).Quelle = some weblink
    ∧ (mineGame pdt weblink p).link = some (normalizeLink weblink) := by
  intro pdt weblink p r d t b hnav hcw hru hda hte hbe hco
  obtain ⟨nav, cw, ru, da, te, be, sb, so, ad, co⟩ := p
  simp only at hnav hcw hru hda hte hbe hco
  subst hnav
  subst hcw
  subst hru
  subst hda
  subst hte
  subst hbe
  simp [mineGame, hco]

/-- Witness for claim C10 on a fully successful page whose coordinate
polling times out. -/
theorem claim_C10_witness :
    (mineGame (fun _ => none) "http://www.oefb.at/Spielbericht/42" pageOk).error = none
    ∧ (mineGame (fun _ => none) "http://www.oefb.at/Spielbericht/42" pageOk).Latitude = none
    ∧ (mineGame (fun _ => none) "http://www.oefb.at/Spielbericht/42" pageOk).Longitude = none
    ∧ (mineGame (fun _ => none) "http://www.oefb.at/Spielbericht/42" pageOk).Runde
        = some (pyStrip " Runde 5 ")
    ∧ (mineGame (fun _ => none) "http://www.oefb.at/Spielbericht/42" pageOk).Heim
        = some (pyOrS (some "Heim SV") (pyStrip "Heim SV"))
    ∧ (mineGame (fun _ => none) "http://www.oefb.at/Spielbericht/42" pageOk).Gast
        = some (pyOrS none (pyStrip " Gast SV "))
    ∧ (mineGame (fun _ => none) "http://www.oefb.at/Spielbericht/42" pageOk).Liga
        = some (pyOrS (some "Wiener Stadtliga") "")
    ∧ (mineGame (fun _ => none) "http://www.oefb.at/Spielbericht/42" pageOk).Spielort_Name
        = some pageOk.spielort
    ∧ (mineGame (fun _ => none) "http://www.oefb.at/Spielbericht/42" pageOk).Adresse
        = some pageOk.adresse
    ∧ (mineGame (fun _ => none) "http://www.oefb.at/Spielbericht/42" pageOk).Quelle
        = some "http://www.oefb.at/Spielbericht/42"
    ∧ (mineGame (fun _ => none) "http://www.oefb.at/Spielbericht/42" pageOk).link
        = some (normalizeLink "http://www.oefb.at/Spielbericht/42") :=
  claim_C10 (fun _ => none) "http://www.oefb.at/Spielbericht/42" pageOk
    " Runde 5 " "01.02.2026"
    ({ title := some "Heim SV", text := "Heim SV", href := some "http://h" },
     { title := none, text := " Gast SV ", href := none })
    (some "Wiener Stadtliga") rfl rfl rfl rfl rfl rfl rfl

theorem crawlInv_appendNew {prior : List CsvRow} (items : List CsvRow) :
    ∀ {st : CrawlState}, crawlInv prior st → crawlInv prior (appendNew items st) := by
  induction items with
  | nil => intro st h; exact h
  | cons it rest ih =>
    intro st h
    rw [appendNew]
    apply ih
    by_cases hmem : it.href ∈ st.seen
    · rw [if_pos hmem]
      exact h
    · rw [if_neg hmem]
      obtain ⟨h1, h2, h3, app, happ, hdisj⟩ := h
      refine ⟨?_, ?_, ?_, app ++ [it], ?_, ?_⟩
      · intro r hr
        rcases List.mem_append.mp hr with hr | hr
        · exact List.mem_cons_of_mem _ (h1 r hr)
        · rw [List.mem_singleton.mp hr]
          exact List.mem_cons_self _ _
      · intro x hx
        exact List.mem_cons_of_mem _ (h2 x hx)
      · rw [List.map_append, List.nodup_append]
        refine ⟨h3, List.nodup_singleton _, ?_⟩
        intro x hx hx'
        rcases List.mem_map.mp hx with ⟨r, hr, rfl⟩
        rw [List.map_singleton, List.mem_singleton] at hx'
        exact hmem (hx' ▸ h1 r hr)
      · rw [happ, List.append_assoc]
      · intro a ha
        rcases List.mem_append.mp ha with ha | ha
        · exact hdisj a ha
        · rw [List.mem_singleton.mp ha]
          intro hcon
          exact hmem (h2 _ hcon)

theorem crawlInv_stream {prior : List CsvRow} (pv : PageVisit) {st : CrawlState}
    (h : crawlInv prior st) : crawlInv prior (streamLinksFromUrl pv st) :=
  crawlInv_appendNew _ (crawlInv_appendNew _ h)

theorem crawlInv_foldl {prior : List CsvRow} (pages : List PageVisit) :
    ∀ {st : CrawlState}, crawlInv prior st →
      crawlInv prior (pages.foldl (fun st pv => streamLinksFromUrl pv st) st) := by
  induction pages with
  | nil => intro st h; exact h
  | cons p ps ih =>
    intro st h
    rw [List.foldl_cons]
    exact ih (crawlInv_stream p h)

theorem crawlInv_resume {prior : List CsvRow}
    (hpr : ∀ r ∈ prior, pyStrip r.href = r.href ∧ r.href ≠ "")
    (hnd : (prior.map CsvRow.href).Nodup) : crawlInv prior (resumeState prior) := by
  have hseen : ∀ r ∈ prior, r.href ∈ (resumeState prior).seen := by
    intro r hr
    obtain ⟨hfix, hne⟩ := hpr r hr
    show r.href ∈ loadExistingHrefs prior
    unfold loadExistingHrefs
    rw [List.mem_filter]
    refine ⟨List.mem_map.mpr ⟨r, hr, hfix⟩, by simpa using hne⟩
  refine ⟨hseen, ?_, hnd, [], by simp [resumeState], by simp⟩
  intro x hx
  rcases List.mem_map.mp hx with ⟨r, hr, rfl⟩
  exact hseen r hr

/-- Claim C7: for every run (with a well-formed prior output whose
hrefs are distinct, strip-invariant and non-empty), each href appears at
most once in the output CSV, no previously stored row is removed (the
file is opened in append mode), and only hrefs absent from the prior
file are appended (every append is guarded by the seen-set seeded from
the prior file). -/
theorem claim_C7 : ∀ (prior : List CsvRow) (pages : List PageVisit),
    (∀ r ∈ prior, pyStrip r.href = r.href ∧ r.href ≠ "") →
    (prior.map CsvRow.href).Nodup →
    (∃ app, (runCrawl prior pages).file = prior ++ app
      ∧ ∀ a ∈ app, a.href ∉ prior.map CsvRow.href)
    ∧ ((runCrawl prior pages).file.map CsvRow.href).Nodup := by
  intro prior pages hpr hnd
  have hinv : crawlInv prior (runCrawl prior pages) :=
    crawlInv_foldl pages (crawlInv_resume hpr hnd)
  obtain ⟨_, _, h3, app, happ, hdisj⟩ := hinv
  exact ⟨⟨app, happ, hdisj⟩, h3⟩

/-- Witness for claim C7: one prior row, one page revisiting the stored
href and discovering one new href. -/
theorem claim_C7_witness :
    (∃ app, (runCrawl priorW pagesW).file = priorW ++ app
      ∧ ∀ a ∈ app, a.href ∉ priorW.map CsvRow.href)
    ∧ ((runCrawl priorW pagesW).file.map CsvRow.href).Nodup :=
  claim_C7 priorW pagesW (by decide) (by decide)

theorem clickLoop_shape (m : Nat) : ∀ (events : List ClickEvent) (clicks : Nat),
    ∃ n, clickLoop m clicks events = List.replicate n CrawlAction.click
      ∧ (n = 0 ∨ clicks + n ≤ m) := by
  intro events
  induction events with
  | nil => intro clicks; exact ⟨0, rfl, Or.inl rfl⟩
  | cons e rest ih =>
    intro clicks
    by_cases h : clicks < m
    · cases e with
      | clickable =>
        obtain ⟨n, hn, hle⟩ := ih (clicks + 1)
        refine ⟨n + 1, ?_, Or.inr ?_⟩
        · simp [clickLoop, h, hn, List.replicate_succ]
        · rcases hle with h0 | hle <;> omega
      | timeout => exact ⟨0, by simp [clickLoop, h], Or.inl rfl⟩
      | stale =>
        obtain ⟨n, hn, hle⟩ := ih clicks
        exact ⟨n, by simp [clickLoop, h, hn], hle⟩
    · exact ⟨0, by simp [clickLoop, h], Or.inl rfl⟩

theorem count_collect_replicate (n : Nat) :
    (List.replicate n CrawlAction.click).count CrawlAction.collect = 0 := by
  induction n with
  | zero => rfl
  | succ k ih => simp [List.replicate_succ, List.count_cons, ih]

/-- Claim C8, counterexample: the claim asserts that after each
individual load-more click the link-collection and append steps re-run.
On a page offering two successful clicks before the button disappears,
the code's action trace is collect, click, click, collect — the first
click is followed by another click, not by a collection pass — so the
claim is false of stream_links_from_url. -/
theorem claim_C8_counterexample :
    eachClickRecollects (streamTrace 10000
      [ClickEvent.clickable, ClickEvent.clickable, ClickEvent.timeout]) = false := by
  decide

/-- Claim C8 as amended: for every listing URL the crawler clicks the
load-more control until it is absent/unclickable or the ceiling is
reached (at most maxClicks clicks), and the link-collection and
immediate-append steps run exactly twice — once before the click loop
and once after the whole loop finishes — not after each click. -/
theorem claim_C8 : ∀ (maxClicks : Nat) (events : List ClickEvent),
    ((streamTrace maxClicks events).count CrawlAction.collect = 2)
    ∧ ∃ n, n ≤ maxClicks ∧ streamTrace maxClicks events
        = CrawlAction.collect ::
            (List.replicate n CrawlAction.click ++ [CrawlAction.collect]) := by
  intro m events
  obtain ⟨n, hn, hle⟩ := clickLoop_shape m events 0
  have hle' : n ≤ m := by rcases hle with h0 | h <;> omega
  constructor
  · unfold streamTrace
    rw [hn]
    simp [List.count_cons, List.count_append, count_collect_replicate]
  · refine ⟨n, hle', ?_⟩
    unfold streamTrace
    rw [hn]

/-- Claim C9 (a code bug): the PLZ half is true — a PLZ cell holding
the string "1190" emits the integer 1190 — and an absent Spielort_Name
column (None) emits "".  But a null Spielort_Name cell, which arrives
from pd.read_csv as float NaN, is Python-truthy, so
str(row.get("Spielort_Name") or "") evaluates to the textual
placeholder "nan" rather than the empty string the claim (and the
spec's own interface contract) requires. -/
theorem claim_C9 :
    (buildRecord (fun _ => none) (fun _ => none) jrowPLZ).SpielortPLZ = some 1190
    ∧ (buildRecord (fun _ => none) (fun _ => none) jrowPLZ).Spielort = ""
    ∧ (buildRecord (fun _ => none) (fun _ => none) jrowNaN).Spielort = "nan"
    ∧ ("nan" : String) ≠ "" := by
  refine ⟨by decide, rfl, rfl, by decide⟩

end FMiner
